import Mathlib

/-!
Verification of the credential-lifecycle core of the `aws-role-session`
package, embedded shallowly in Lean 4.

The embedding follows the Python source:
  * `aws_config_parser.py`  — the credentials-store logic
    (`_is_expired`, `_read_profile`, `store_temp_profile`, `temp_profile_name`,
    `profile_mfa_is_configured`);
  * `aws_role_session.py`   — the session state machine
    (`update_temp_profile`, `_otp`, `_get_role`, `_role_to_assume`,
    `_role_session`, `_existing_role_session`, `_get_role_session`);
  * `aws_role_session_config.py` — configuration lookups
    (`account_role`, `account_id_for_name`).

The durable store is modelled as an association list of named sections of
key-value string fields (Python `ConfigParser` state), timestamps by an
explicit calendar record mirroring `datetime.datetime` (with an optional
UTC offset; `none` models a naive datetime), and Python exceptions by an
explicit error type returned through `Except`.  The two identity-provider
network operations are black boxes: a successful exchange is modelled by
passing its response record to the operation under verification, and the
number of provider calls performed is recorded in the outcome.
-/

/-- Python exceptions that the modelled code paths can raise. -/
inductive PyErr where
  /-- `ValueError`, raised by `datetime.fromisoformat` on a malformed string. -/
  | valueError
  /-- `TypeError`, raised when comparing a naive and an aware `datetime`
  (and when subscripting `None`). -/
  | typeError
  /-- `configparser.DuplicateSectionError`, raised by `add_section` when the
  section already exists. -/
  | duplicateSectionError
  /-- `RuntimeError` with a message, as raised by the package itself. -/
  | runtimeError (msg : String)
  deriving Repr, DecidableEq

/-- Model of a Python `datetime.datetime` value: a calendar timestamp with an
optional UTC offset in minutes.  `tz = none` models a naive datetime,
`tz = some off` an aware one with `utcoffset()` equal to `off` minutes. -/
structure PyDatetime where
  year : Nat
  month : Nat
  day : Nat
  hour : Nat
  minute : Nat
  second : Nat
  tz : Option Int
  deriving Repr, DecidableEq

/-- Value of a decimal digit character, `none` for a non-digit. -/
def digit? (c : Char) : Option Nat :=
  if c.isDigit then some (c.toNat - 48) else none

/-- Read two decimal digits from the front of a character list. -/
def twoDigits : List Char → Option (Nat × List Char)
  | c1 :: c2 :: r => do
      let d1 ← digit? c1
      let d2 ← digit? c2
      pure (d1 * 10 + d2, r)
  | _ => none

/-- Read four decimal digits from the front of a character list. -/
def fourDigits : List Char → Option (Nat × List Char)
  | c1 :: c2 :: c3 :: c4 :: r => do
      let d1 ← digit? c1
      let d2 ← digit? c2
      let d3 ← digit? c3
      let d4 ← digit? c4
      pure (d1 * 1000 + d2 * 100 + d3 * 10 + d4, r)
  | _ => none

/-- Consume one expected character from the front of a character list. -/
def expectChar (c : Char) : List Char → Option (List Char)
  | x :: r => if x = c then some r else none
  | [] => none

/-- Gregorian leap-year test, as in Python's `calendar.isleap`. -/
def isLeapYear (y : Nat) : Bool :=
  (y % 4 = 0 && y % 100 ≠ 0) || y % 400 = 0

/-- Number of days in a month of a given year. -/
def daysInMonth (y m : Nat) : Nat :=
  if m = 2 then (if isLeapYear y then 29 else 28)
  else if m = 4 || m = 6 || m = 9 || m = 11 then 30
  else 31

/-- Read `HH:MM:SS` from the front of a character list. -/
def parseTimeOfDay (cs : List Char) : Option ((Nat × Nat × Nat) × List Char) := do
  let (h, cs) ← twoDigits cs
  let cs ← expectChar ':' cs
  let (mi, cs) ← twoDigits cs
  let cs ← expectChar ':' cs
  let (s, cs) ← twoDigits cs
  pure ((h, mi, s), cs)

/-- Read an optional trailing UTC offset `+HH:MM` / `-HH:MM`; an empty rest
means a naive timestamp.  Returns `none` on a malformed offset. -/
def parseUtcOffset : List Char → Option (Option Int)
  | [] => some none
  | '+' :: cs => do
      let (oh, cs) ← twoDigits cs
      let cs ← expectChar ':' cs
      let (om, cs) ← twoDigits cs
      if cs = [] && oh ≤ 23 && om ≤ 59 then pure (some ((oh * 60 + om : Nat) : Int))
      else none
  | '-' :: cs => do
      let (oh, cs) ← twoDigits cs
      let cs ← expectChar ':' cs
      let (om, cs) ← twoDigits cs
      if cs = [] && oh ≤ 23 && om ≤ 59 then pure (some (-((oh * 60 + om : Nat) : Int)))
      else none
  | _ => none

/-- Range validation performed by the `datetime` constructor. -/
def validDatetime (y m d h mi s : Nat) : Bool :=
  1 ≤ y && y ≤ 9999 && 1 ≤ m && m ≤ 12 && 1 ≤ d && d ≤ daysInMonth y m
    && h ≤ 23 && mi ≤ 59 && s ≤ 59

/-- Character-list worker for `fromisoformat`. -/
def fromisoformatChars (cs : List Char) : Option PyDatetime := do
  let (y, cs) ← fourDigits cs
  let cs ← expectChar '-' cs
  let (m, cs) ← twoDigits cs
  let cs ← expectChar '-' cs
  let (d, cs) ← twoDigits cs
  match cs with
  | [] =>
      if validDatetime y m d 0 0 0 then pure ⟨y, m, d, 0, 0, 0, none⟩ else none
  | sep :: rest =>
      if sep = 'T' || sep = ' ' then do
        let ((h, mi, s), rest) ← parseTimeOfDay rest
        let tz ← parseUtcOffset rest
        if validDatetime y m d h mi s then pure ⟨y, m, d, h, mi, s, tz⟩ else none
      else none

/-- Model of Python `datetime.fromisoformat`, restricted to the shapes the
package reads and writes: `YYYY-MM-DD`, optionally followed by a separator
and `HH:MM:SS`, optionally followed by a numeric UTC offset `±HH:MM`.
A string outside this grammar raises `ValueError`. -/
def fromisoformat (s : String) : Except PyErr PyDatetime :=
  match fromisoformatChars s.data with
  | some dt => .ok dt
  | none => .error .valueError

/-- Days from 1970-01-01 of a proleptic Gregorian civil date
(standard days-from-civil algorithm). -/
def daysFromCivil (y m d : Nat) : Int :=
  let yi : Int := (y : Int) - (if m ≤ 2 then 1 else 0)
  let era : Int := yi / 400
  let yoe : Int := yi - era * 400
  let mp : Int := ((m : Int) + 9) % 12
  let doy : Int := (153 * mp + 2) / 5 + (d : Int) - 1
  let doe : Int := yoe * 365 + yoe / 4 - yoe / 100 + doy
  era * 146097 + doe - 719468

/-- Seconds from the epoch of the local (wall-clock) reading of a timestamp. -/
def localSeconds (dt : PyDatetime) : Int :=
  daysFromCivil dt.year dt.month dt.day * 86400
    + ((dt.hour * 3600 + dt.minute * 60 + dt.second : Nat) : Int)

/-- UTC instant (seconds from the epoch) denoted by an aware timestamp;
for a naive timestamp this is its wall-clock reading. -/
def pyInstant (dt : PyDatetime) : Int :=
  localSeconds dt - (dt.tz.getD 0) * 60

/-- Decimal rendering of a number padded to two digits. -/
def pad2 (n : Nat) : String :=
  if n < 10 then "0" ++ toString n else toString n

/-- Decimal rendering of a number padded to four digits. -/
def pad4 (n : Nat) : String :=
  if n < 10 then "000" ++ toString n
  else if n < 100 then "00" ++ toString n
  else if n < 1000 then "0" ++ toString n
  else toString n

/-- Model of Python `datetime.isoformat` on whole-second timestamps:
`YYYY-MM-DDTHH:MM:SS`, followed by `±HH:MM` when the timestamp is aware. -/
def isoformat (dt : PyDatetime) : String :=
  pad4 dt.year ++ "-" ++ pad2 dt.month ++ "-" ++ pad2 dt.day ++ "T"
    ++ pad2 dt.hour ++ ":" ++ pad2 dt.minute ++ ":" ++ pad2 dt.second
    ++ (match dt.tz with
        | none => ""
        | some off =>
            (if off < 0 then "-" else "+")
              ++ pad2 (off.natAbs / 60) ++ ":" ++ pad2 (off.natAbs % 60))

/-- Fields of one store section: an ordered key-value list, as held by one
`ConfigParser` section. -/
abbrev Fields := List (String × String)

/-- The durable credentials store: named sections of fields, in file order
(the in-memory `ConfigParser` state, persisted by each write). -/
abbrev Store := List (String × Fields)

/-- Look a key up in a section's fields (Python `section.get(key, None)`). -/
def sectionGet : Fields → String → Option String
  | [], _ => none
  | (k, v) :: rest, key => if k = key then some v else sectionGet rest key

/-- Set a field in a section, overwriting in place or appending
(Python `section[key] = value`). -/
def setField : Fields → String → String → Fields
  | [], key, val => [(key, val)]
  | (k, v) :: rest, key, val =>
      if k = key then (key, val) :: rest else (k, v) :: setField rest key val

/-- Look a section up by name (Python `parser[name]` guarded by
`has_section`). -/
def getSection : Store → String → Option Fields
  | [], _ => none
  | (n, f) :: rest, name => if n = name then some f else getSection rest name

/-- Model of `ConfigParser.has_section`. -/
def has_section (st : Store) (name : String) : Bool :=
  (getSection st name).isSome

/-- Set one field of a named section, leaving other sections unchanged. -/
def setSectionField : Store → String → String → String → Store
  | [], _, _, _ => []
  | (n, f) :: rest, name, key, val =>
      if n = name then (n, setField f key val) :: rest
      else (n, f) :: setSectionField rest name key val

/-- Model of `ConfigParser.add_section`: appends an empty section, raising
`DuplicateSectionError` when a section of that name already exists. -/
def add_section (st : Store) (name : String) : Except PyErr Store :=
  if has_section st name then .error .duplicateSectionError
  else .ok (st ++ [(name, [])])

/-- Embedding of `AwsConfigParser._is_expired`: parse the stored expiration
string (`None` → expired) and compare it against the current aware UTC time
`datetime.now(timezone.utc)`, given here as `nowUtc` seconds from the epoch.
Python's `<` on datetimes compares UTC instants when both sides are aware and
raises `TypeError` when one side is naive. -/
def is_expired (date_string_utc : Option String) (nowUtc : Int) : Except PyErr Bool :=
  match date_string_utc with
  | none => .ok true
  | some s =>
      match fromisoformat s with
      | .error e => .error e
      | .ok dt =>
          match dt.tz with
          | some _ => .ok (decide (pyInstant dt < nowUtc))
          | none => .error .typeError

/-- Embedding of `AwsConfigParser._read_profile`.  Returns the named section,
`none` for a section that is missing (when allowed) or carries an
`expiration_utc` field that `_is_expired` evaluates to true; raises
`RuntimeError` for a missing-or-expired section when missing profiles are not
allowed, and propagates any exception raised by `_is_expired`. -/
def read_profile (st : Store) (nowUtc : Int) (profile_name : String)
    (allow_missing_profile : Bool) : Except PyErr (Option Fields) :=
  match getSection st profile_name with
  | none =>
      if allow_missing_profile then .ok none
      else .error (.runtimeError ("credentials file does not contain profile " ++ profile_name))
  | some sect =>
      match sectionGet sect "expiration_utc" with
      | none => .ok (some sect)
      | some s =>
          match is_expired (some s) nowUtc with
          | .error e => .error e
          | .ok true =>
              if allow_missing_profile then .ok none
              else .error (.runtimeError ("credentials file does not contain profile " ++ profile_name))
          | .ok false => .ok (some sect)

/-- Embedding of the `AwsConfigParser.profile` property: the base profile,
read with `allow_missing_profile=False` so that a missing profile raises. -/
def profile (st : Store) (nowUtc : Int) (profile_name : String) : Except PyErr Fields :=
  match read_profile st nowUtc profile_name false with
  | .ok (some f) => .ok f
  | .ok none => .error (.runtimeError ("credentials file does not contain profile " ++ profile_name))
  | .error e => .error e

/-- Embedding of `AwsConfigParser.temp_profile_name`:
`f"temp-{self.profile_name}"`. -/
def temp_profile_name (profile_name : String) : String :=
  "temp-" ++ profile_name

/-- Embedding of the `AwsConfigParser.temp_profile` property: the temporary
section, read with `allow_missing_profile=True`, so it is `none` when missing
or expired. -/
def temp_profile (st : Store) (nowUtc : Int) (profile_name : String) :
    Except PyErr (Option Fields) :=
  read_profile st nowUtc (temp_profile_name profile_name) true

/-- Embedding of `AwsConfigParser.profile_mfa_is_configured`: both `mfa_key`
and `mfa_serial` are present in the base profile. -/
def profile_mfa_is_configured (base : Fields) : Bool :=
  (sectionGet base "mfa_key").isSome && (sectionGet base "mfa_serial").isSome

/-- The spec's section-level `ExpiryPolicy.isExpired`, as the code realises it
through `_read_profile` (`valid_temp_profile_exists` negated): a section is
expired exactly when the expiry-filtered read returns no section. -/
def isExpired (st : Store) (nowUtc : Int) (name : String) : Except PyErr Bool :=
  match read_profile st nowUtc name true with
  | .error e => .error e
  | .ok p => .ok p.isNone

/-- One assignment `self.temp_profile[key] = val` inside `store_temp_profile`:
the `temp_profile` property is re-read (propagating its exceptions), and a
`None` result — an absent or expired section — raises `TypeError` when
subscripted; otherwise the field is written through to the parser state. -/
def assign_temp (st : Store) (nowUtc : Int) (profile_name key val : String) :
    Except PyErr Store :=
  match temp_profile st nowUtc profile_name with
  | .error e => .error e
  | .ok none => .error .typeError
  | .ok (some _) => .ok (setSectionField st (temp_profile_name profile_name) key val)

/-- Embedding of `AwsConfigParser.store_temp_profile`: when the expiry-filtered
`temp_profile` read returns `None`, `add_section` is called; then the four
credential fields are assigned one at a time through the `temp_profile`
property, and the resulting parser state is persisted (the returned store). -/
def store_temp_profile (st : Store) (nowUtc : Int)
    (profile_name AccessKeyId SecretAccessKey SessionToken : String)
    (Expiration : PyDatetime) : Except PyErr Store :=
  match temp_profile st nowUtc profile_name with
  | .error e => .error e
  | .ok tp =>
      match (if tp.isNone then add_section st (temp_profile_name profile_name) else .ok st) with
      | .error e => .error e
      | .ok st1 =>
          match assign_temp st1 nowUtc profile_name "aws_access_key_id" AccessKeyId with
          | .error e => .error e
          | .ok st2 =>
              match assign_temp st2 nowUtc profile_name "aws_secret_access_key" SecretAccessKey with
              | .error e => .error e
              | .ok st3 =>
                  match assign_temp st3 nowUtc profile_name "aws_session_token" SessionToken with
                  | .error e => .error e
                  | .ok st4 =>
                      assign_temp st4 nowUtc profile_name "expiration_utc" (isoformat Expiration)

/-- Read one field of the temporary section directly from the store, without
the expiry filter: `DurableProfileStore.readSection(tempName)[key]`. -/
def readTempField (st : Store) (profile_name key : String) : Option String :=
  match getSection st (temp_profile_name profile_name) with
  | none => none
  | some f => sectionGet f key

/-- The `Credentials` record of a successful `sts.get_session_token` response,
as unpacked by `store_temp_profile(**result["Credentials"])`. -/
structure ProviderResult where
  AccessKeyId : String
  SecretAccessKey : String
  SessionToken : String
  Expiration : PyDatetime
  deriving Repr, DecidableEq

/-- How the one-time password is obtained during a refresh. -/
inductive OtpAction where
  /-- `use_mfa` is false: `get_session_token` is called with no serial and no
  token code, and no OTP is obtained. -/
  | noOtp
  /-- `pyotp.TOTP(profile_mfa_key).now()`: computed from the stored shared
  secret. -/
  | computed (mfa_key : Option String)
  /-- `input("Enter MFA One Time Password: ")`: blocking interactive entry. -/
  | interactive
  deriving Repr, DecidableEq

/-- Observable outcome of one `update_temp_profile` call: the resulting store,
the number of identity-provider calls made, the number of durable-store
writes performed, and how an OTP was obtained (if at all). -/
structure UpdateOutcome where
  store : Store
  provider_calls : Nat
  writes : Nat
  otp_action : OtpAction
  deriving Repr, DecidableEq

/-- Embedding of `AwsRoleSession.update_temp_profile` (with `AwsRoleSession._otp`
inlined at its call site).  When the expiry-filtered temporary profile exists
the call is a no-op; otherwise the base profile is read (for its keys and
region), an OTP is obtained per `_otp` when `use_mfa` is set, the provider's
`get_session_token` exchange runs — its successful response is `creds` — and
the returned credentials are written back via `store_temp_profile`. -/
def update_temp_profile (st : Store) (nowUtc : Int) (profile_name : String)
    (use_mfa : Bool) (creds : ProviderResult) : Except PyErr UpdateOutcome :=
  match temp_profile st nowUtc profile_name with
  | .error e => .error e
  | .ok (some _) => .ok ⟨st, 0, 0, OtpAction.noOtp⟩
  | .ok none =>
      match profile st nowUtc profile_name with
      | .error e => .error e
      | .ok base =>
          let action :=
            if use_mfa then
              (if profile_mfa_is_configured base then
                OtpAction.computed (sectionGet base "mfa_key")
              else OtpAction.interactive)
            else OtpAction.noOtp
          match store_temp_profile st nowUtc profile_name creds.AccessKeyId
              creds.SecretAccessKey creds.SessionToken creds.Expiration with
          | .error e => .error e
          | .ok st1 => .ok ⟨st1, 1, 1, action⟩

/-- One account entry of the validated configuration document: a name, a
12-digit numeric id string, and optional role and category overrides. -/
structure Account where
  name : String
  id : String
  role : Option String
  category : Option String
  deriving Repr, DecidableEq

/-- The slice of the validated configuration that the modelled operations
read.  The schema requires `defaults.profile_name` and `defaults.role_name`,
so both defaults are plain strings here. -/
structure SessionConfig where
  default_profile : String
  default_role : String
  default_use_mfa : Bool
  accounts : List Account
  deriving Repr, DecidableEq

/-- First configured role among accounts matching the name, skipping accounts
without a `role` key: the generator inside
`AwsRoleSessionConfig.account_role`. -/
def find_account_role : List Account → String → Option String
  | [], _ => none
  | acc :: rest, n =>
      match acc.role with
      | some r => if acc.name = n then some r else find_account_role rest n
      | none => find_account_role rest n

/-- Embedding of `AwsRoleSessionConfig.account_role`: the per-account role
override when present, else the default role. -/
def account_role (cfg : SessionConfig) (account_name : String) : String :=
  match find_account_role cfg.accounts account_name with
  | some r => r
  | none => cfg.default_role

/-- First configured id among accounts matching the name: the generator inside
`AwsRoleSessionConfig.account_id_for_name`, which returns `None` when the
account is absent. -/
def account_id_for_name (cfg : SessionConfig) (account_name : String) : Option String :=
  match cfg.accounts.find? (fun acc => acc.name = account_name) with
  | some acc => some acc.id
  | none => none

/-- Embedding of the `_role_name` initialisation in `AwsRoleSession.__init__`:
the constructor-supplied role when given, else the configured default role. -/
def init_role_name (role_name : Option String) (cfg : SessionConfig) : Option String :=
  match role_name with
  | some r => some r
  | none => some cfg.default_role

/-- Embedding of `AwsRoleSession._get_role`: the config lookup runs only when
the initialised `_role_name` is `None`. -/
def get_role (role_name : Option String) (cfg : SessionConfig)
    (account_name : String) : Option String :=
  match role_name with
  | none => some (account_role cfg account_name)
  | some r => some r

/-- Rendering of a Python optional string inside an f-string:
`None` prints as the four characters `None`. -/
def pyStr : Option String → String
  | some s => s
  | none => "None"

/-- Embedding of `AwsRoleSession._role_to_assume`: look up the account id
(no check that it exists), raise `RuntimeError` only when no role resolves,
and otherwise interpolate both into the fixed ARN template. -/
def role_to_assume (role_name : Option String) (cfg : SessionConfig)
    (account_name : String) : Except PyErr String :=
  let account_id := account_id_for_name cfg account_name
  match get_role role_name cfg account_name with
  | none => .error (.runtimeError ("No role was configured for account " ++ account_name))
  | some r => .ok ("arn:aws:iam::" ++ pyStr account_id ++ ":role/" ++ r)

/-- In-process state of the role-session cache: the `_role_sessions` list
(account name paired with the session object, identified here by a numeric
tag), the number of provider `assume_role` calls made, a counter minting
fresh session identities, and the log of `assume_role` call arguments
(role ARN, session name, duration seconds). -/
structure SessionState where
  role_sessions : List (String × Nat)
  provider_calls : Nat
  next_id : Nat
  calls : List (String × String × Nat)
  deriving Repr, DecidableEq

/-- Embedding of `AwsRoleSession._existing_role_session`: the first cached
entry whose stored account name equals the requested one. -/
def existing_role_session : List (String × Nat) → String → Option Nat
  | [], _ => none
  | (a, s) :: rest, account_name =>
      if a = account_name then some s else existing_role_session rest account_name

/-- Embedding of `AwsRoleSession._get_role_session`: build the role ARN
(raising when no role resolves), call the provider's `assume_role` with that
ARN, the session name `assume-<account>` and a 3600-second duration, wrap the
returned credentials in a fresh session object, and append it to the cache. -/
def get_role_session (cfg : SessionConfig) (role_name : Option String)
    (σ : SessionState) (account_name : String) : Except PyErr (Nat × SessionState) :=
  match role_to_assume role_name cfg account_name with
  | .error e => .error e
  | .ok arn =>
      .ok (σ.next_id,
        { role_sessions := σ.role_sessions ++ [(account_name, σ.next_id)]
          provider_calls := σ.provider_calls + 1
          next_id := σ.next_id + 1
          calls := σ.calls ++ [(arn, "assume-" ++ account_name, 3600)] })

/-- Embedding of `AwsRoleSession._role_session`: return the cached session for
the account when one exists, else create one via `_get_role_session`. -/
def role_session (cfg : SessionConfig) (role_name : Option String)
    (σ : SessionState) (account_name : String) : Except PyErr (Nat × SessionState) :=
  match existing_role_session σ.role_sessions account_name with
  | some s => .ok (s, σ)
  | none => get_role_session cfg role_name σ account_name

deriving instance DecidableEq for Except

theorem sectionGet_setField_self (f : Fields) (k v : String) :
    sectionGet (setField f k v) k = some v := by
  induction f with
  | nil => simp [setField, sectionGet]
  | cons p rest ih =>
      obtain ⟨k0, v0⟩ := p
      by_cases h : k0 = k
      · simp [setField, h, sectionGet]
      · simp [setField, h, sectionGet, ih]

theorem sectionGet_setField_ne (f : Fields) (k v k' : String) (hne : k' ≠ k) :
    sectionGet (setField f k v) k' = sectionGet f k' := by
  induction f with
  | nil => simp [setField, sectionGet, hne, Ne.symm hne]
  | cons p rest ih =>
      obtain ⟨k0, v0⟩ := p
      by_cases h : k0 = k
      · simp [setField, h, sectionGet, Ne.symm hne, hne]
      · simp [setField, h, sectionGet, ih]

theorem getSection_setSectionField_self (st : Store) (n k v : String) (f : Fields)
    (h : getSection st n = some f) :
    getSection (setSectionField st n k v) n = some (setField f k v) := by
  induction st with
  | nil => simp [getSection] at h
  | cons p rest ih =>
      obtain ⟨n0, f0⟩ := p
      by_cases hn : n0 = n
      · subst hn
        simp [getSection] at h
        simp [setSectionField, getSection, h]
      · simp [getSection, hn] at h
        simp [setSectionField, getSection, hn, ih h]

theorem read_profile_ok_some {st : Store} {nowUtc : Int} {pn : String}
    {am : Bool} {f : Fields} (h : read_profile st nowUtc pn am = .ok (some f)) :
    getSection st pn = some f := by
  unfold read_profile at h
  split at h
  · split at h <;> simp_all
  · rename_i sect hsect
    split at h
    · simp_all
    · split at h
      · simp_all
      · split at h <;> simp_all
      · simp_all

theorem assign_temp_ok {st : Store} {nowUtc : Int} {p k v : String} {st' : Store}
    (h : assign_temp st nowUtc p k v = .ok st') :
    (∃ f, getSection st (temp_profile_name p) = some f)
      ∧ st' = setSectionField st (temp_profile_name p) k v := by
  unfold assign_temp at h
  split at h
  · simp_all
  · simp_all
  · rename_i sec hsec
    refine ⟨⟨sec, read_profile_ok_some hsec⟩, ?_⟩
    simp_all

theorem existing_append_self (l : List (String × Nat)) (a : String) (s : Nat)
    (h : existing_role_session l a = none) :
    existing_role_session (l ++ [(a, s)]) a = some s := by
  induction l with
  | nil => simp [existing_role_session]
  | cons p rest ih =>
      obtain ⟨a0, s0⟩ := p
      by_cases ha : a0 = a
      · simp [existing_role_session, ha] at h
      · simp [existing_role_session, ha] at h ⊢
        exact ih h

theorem existing_mem (l : List (String × Nat)) (a : String) (s : Nat)
    (h : existing_role_session l a = some s) : (a, s) ∈ l := by
  induction l with
  | nil => simp [existing_role_session] at h
  | cons p rest ih =>
      obtain ⟨a0, s0⟩ := p
      by_cases ha : a0 = a
      · subst ha
        simp [existing_role_session] at h
        simp [h]
      · simp [existing_role_session, ha] at h
        exact List.mem_cons_of_mem _ (ih h)

theorem existing_none_not_mem (l : List (String × Nat)) (a : String)
    (h : existing_role_session l a = none) : a ∉ l.map Prod.fst := by
  induction l with
  | nil => simp
  | cons p rest ih =>
      obtain ⟨a0, s0⟩ := p
      by_cases ha : a0 = a
      · simp [existing_role_session, ha] at h
      · simp [existing_role_session, ha] at h
        simp [ih h, Ne.symm ha]

/-- C1: the claim says a refresh finding the stored temporary section expired
completes without error and overwrites it with the provider's returned
credentials.  The code instead crashes: the expired-but-present section makes
the `temp_profile` property return `None`, so `store_temp_profile` calls
`add_section` on a name that already exists in the parser, which raises
`DuplicateSectionError`.  This theorem evaluates the modelled
`update_temp_profile` at such a state — base profile present, temporary
section present with an expiration one year in the past, a successful
provider exchange supplied — and shows the call raises instead of
overwriting. -/
theorem c1_refresh_with_expired_section_raises :
    has_section [("work", [("aws_access_key_id", "AKIDBASE"), ("aws_secret_access_key", "SECRETBASE")]),
        ("temp-work", [("aws_access_key_id", "OLDKEY"), ("aws_secret_access_key", "OLDSECRET"),
          ("aws_session_token", "OLDTOKEN"), ("expiration_utc", "2020-01-01T00:00:00+00:00")])]
      "temp-work" = true
    ∧ isExpired [("work", [("aws_access_key_id", "AKIDBASE"), ("aws_secret_access_key", "SECRETBASE")]),
        ("temp-work", [("aws_access_key_id", "OLDKEY"), ("aws_secret_access_key", "OLDSECRET"),
          ("aws_session_token", "OLDTOKEN"), ("expiration_utc", "2020-01-01T00:00:00+00:00")])]
        (pyInstant ⟨2021, 1, 1, 0, 0, 0, some 0⟩) "temp-work" = .ok true
    ∧ update_temp_profile [("work", [("aws_access_key_id", "AKIDBASE"), ("aws_secret_access_key", "SECRETBASE")]),
        ("temp-work", [("aws_access_key_id", "OLDKEY"), ("aws_secret_access_key", "OLDSECRET"),
          ("aws_session_token", "OLDTOKEN"), ("expiration_utc", "2020-01-01T00:00:00+00:00")])]
        (pyInstant ⟨2021, 1, 1, 0, 0, 0, some 0⟩) "work" false
        ⟨"NEWKEY", "NEWSECRET", "NEWTOKEN", ⟨2030, 1, 1, 0, 0, 0, some 0⟩⟩
      = .error .duplicateSectionError := by
  refine ⟨rfl, by decide, by decide⟩

/-- C2 (amended): `isExpired` classifies every stored section as follows — an
absent section is expired; a section with no expiration field is not expired;
otherwise, with the expiration parsed as an aware UTC timestamp, the section
is expired if and only if the timestamp is strictly before the current UTC
time (a timestamp exactly equal to the current time counts as NOT expired,
because the code compares with `<`, not `<=`). -/
theorem c2_isExpired_classification :
    ∀ (st : Store) (nowUtc : Int) (name : String),
    (getSection st name = none → isExpired st nowUtc name = .ok true)
    ∧ (∀ f, getSection st name = some f → sectionGet f "expiration_utc" = none →
        isExpired st nowUtc name = .ok false)
    ∧ (∀ f s dt off, getSection st name = some f →
        sectionGet f "expiration_utc" = some s →
        fromisoformat s = .ok dt → dt.tz = some off →
        isExpired st nowUtc name = .ok (decide (pyInstant dt < nowUtc))) := by
  intro st nowUtc name
  refine ⟨?_, ?_, ?_⟩
  · intro hg
    simp [isExpired, read_profile, hg]
  · intro f hg hs
    simp only [isExpired, read_profile, hg, hs, Option.isNone]
  · intro f s dt off hg hs hdt htz
    have hexp : is_expired (some s) nowUtc = .ok (decide (pyInstant dt < nowUtc)) := by
      simp only [is_expired, hdt, htz]
    by_cases hlt : pyInstant dt < nowUtc
    · simp [isExpired, read_profile, hg, hs, hexp, hlt]
    · simp [isExpired, read_profile, hg, hs, hexp, hlt]

/-- Witness for C2: a section expiring in 2099 evaluated at the epoch is
classified by the third branch of the classification theorem. -/
theorem c2_isExpired_classification_witness :
    isExpired [("temp-w2", [("expiration_utc", "2099-06-30T08:15:00+00:00")])] 0 "temp-w2"
      = .ok (decide (pyInstant ⟨2099, 6, 30, 8, 15, 0, some 0⟩ < 0)) :=
  (c2_isExpired_classification
      [("temp-w2", [("expiration_utc", "2099-06-30T08:15:00+00:00")])] 0 "temp-w2").2.2
    [("expiration_utc", "2099-06-30T08:15:00+00:00")] "2099-06-30T08:15:00+00:00"
    ⟨2099, 6, 30, 8, 15, 0, some 0⟩ 0 (by decide) (by decide) (by decide) (by decide)

/-- Counterexample for C2 as stated: a stored expiration exactly equal to the
current UTC time is NOT classified as expired (the claim says a timestamp
equal to the current time counts as expired). -/
theorem c2_equal_timestamp_not_expired :
    fromisoformat "2021-06-01T12:00:00+00:00" = .ok ⟨2021, 6, 1, 12, 0, 0, some 0⟩
    ∧ isExpired [("temp-x", [("expiration_utc", "2021-06-01T12:00:00+00:00")])]
        (pyInstant ⟨2021, 6, 1, 12, 0, 0, some 0⟩) "temp-x" = .ok false
    ∧ isExpired [("temp-x", [("expiration_utc", "2021-06-01T12:00:00+00:00")])]
        (pyInstant ⟨2021, 6, 1, 12, 0, 0, some 0⟩) "temp-x" ≠ .ok true := by
  refine ⟨by decide, by decide, by decide⟩

/-- C3: `update_temp_profile` is idempotent — whenever the temporary section is
present and not expired, the call is a no-op: the store is returned unchanged
and zero provider calls and zero store writes are performed (so a second call
after any call that left a valid section also performs none). -/
theorem c3_update_temp_profile_idempotent :
    ∀ (st : Store) (nowUtc : Int) (p : String) (use_mfa : Bool)
      (creds : ProviderResult) (f : Fields),
    getSection st (temp_profile_name p) = some f →
    (sectionGet f "expiration_utc" = none ∨
      ∃ s, sectionGet f "expiration_utc" = some s ∧ is_expired (some s) nowUtc = .ok false) →
    update_temp_profile st nowUtc p use_mfa creds = .ok ⟨st, 0, 0, OtpAction.noOtp⟩ := by
  intro st nowUtc p use_mfa creds f hg hvalid
  have htp : temp_profile st nowUtc p = .ok (some f) := by
    rcases hvalid with hnone | ⟨s, hs, hexp⟩
    · simp only [temp_profile, read_profile, hg, hnone]
    · simp only [temp_profile, read_profile, hg, hs, hexp]
  simp only [update_temp_profile, htp]

/-- Witness for C3: with a temporary section valid until 2098, a refresh call
at the epoch performs zero provider calls and zero writes and leaves the
store unchanged. -/
theorem c3_update_temp_profile_idempotent_witness :
    update_temp_profile [("temp-work2", [("expiration_utc", "2098-01-02T03:04:05+00:00")])]
        0 "work2" true ⟨"AK", "SK", "TOK", ⟨2099, 1, 1, 0, 0, 0, some 0⟩⟩
      = .ok ⟨[("temp-work2", [("expiration_utc", "2098-01-02T03:04:05+00:00")])], 0, 0,
          OtpAction.noOtp⟩ :=
  c3_update_temp_profile_idempotent
    [("temp-work2", [("expiration_utc", "2098-01-02T03:04:05+00:00")])] 0 "work2" true
    ⟨"AK", "SK", "TOK", ⟨2099, 1, 1, 0, 0, 0, some 0⟩⟩
    [("expiration_utc", "2098-01-02T03:04:05+00:00")] (by decide)
    (Or.inr ⟨"2098-01-02T03:04:05+00:00", by decide, by decide⟩)

/-- C4: the claim says requesting a session for an account absent from the
configuration raises a `ConfigurationError` before any provider call.  The
code has no such check: `account_id_for_name` returns `None`, no exception is
raised, the f-string renders the missing id as the literal text `None`, and
the provider's `assume_role` IS called with the nonsense ARN
`arn:aws:iam::None:role/Deploy`.  This theorem evaluates the modelled session
lookup for the unconfigured account `other` (configured accounts: only
`prod`) and shows the call completes with one provider call recorded. -/
theorem c4_unconfigured_account_no_error :
    account_id_for_name ⟨"work", "Deploy", true, [⟨"prod", "123456789012", none, none⟩]⟩
      "other" = none
    ∧ role_session ⟨"work", "Deploy", true, [⟨"prod", "123456789012", none, none⟩]⟩
        (init_role_name none ⟨"work", "Deploy", true, [⟨"prod", "123456789012", none, none⟩]⟩)
        ⟨[], 0, 0, []⟩ "other"
      = .ok (0, ⟨[("other", 0)], 1, 1,
          [("arn:aws:iam::None:role/Deploy", "assume-other", 3600)]⟩) := by
  exact ⟨by decide, by decide⟩

/-- C5: the claim says that with no constructor-supplied role, the per-account
role override from configuration takes precedence over the default role.  The
code resolves `_role_name` to the default role already in `__init__`, so
`_get_role` never finds it `None` and never consults
`AwsRoleSessionConfig.account_role`; the configured override is ignored.
This theorem evaluates both functions on an account `prod` carrying override
`Deploy` under default role `DefaultRole`: the config lookup would produce
the override, but the session's role resolution produces the default. -/
theorem c5_role_override_ignored :
    account_role ⟨"work", "DefaultRole", true,
        [⟨"prod", "123456789012", some "Deploy", none⟩]⟩ "prod" = "Deploy"
    ∧ get_role
        (init_role_name none ⟨"work", "DefaultRole", true,
          [⟨"prod", "123456789012", some "Deploy", none⟩]⟩)
        ⟨"work", "DefaultRole", true, [⟨"prod", "123456789012", some "Deploy", none⟩]⟩
        "prod" = some "DefaultRole" := by
  exact ⟨by decide, by decide⟩

/-- C6: the in-process role-session cache returns, for a repeated request with
the same account name, the identical cached session with no further provider
call (the second lookup returns exactly the first result and leaves the state
unchanged); the returned session is bound to the requested account name in
the cache (exact-name match, so a session cached only for another account is
never returned); at most one entry per account name is preserved; and a
cache miss performs exactly one provider `assume_role` call. -/
theorem c6_role_session_cache :
    ∀ (cfg : SessionConfig) (rn : Option String) (σ : SessionState) (a : String)
      (s1 : Nat) (σ1 : SessionState),
    role_session cfg rn σ a = .ok (s1, σ1) →
    role_session cfg rn σ1 a = .ok (s1, σ1)
    ∧ (a, s1) ∈ σ1.role_sessions
    ∧ ((σ.role_sessions.map Prod.fst).Nodup → (σ1.role_sessions.map Prod.fst).Nodup)
    ∧ (existing_role_session σ.role_sessions a = none →
        σ1.provider_calls = σ.provider_calls + 1)
    ∧ (existing_role_session σ.role_sessions a = some s1 → σ1 = σ)
    ∧ (∀ b t, existing_role_session σ.role_sessions b = some t → (b, t) ∈ σ.role_sessions) := by
  intro cfg rn σ a s1 σ1 h
  unfold role_session at h
  cases hex : existing_role_session σ.role_sessions a with
  | some s =>
      rw [hex] at h
      simp only [Except.ok.injEq, Prod.mk.injEq] at h
      obtain ⟨hs, hσ⟩ := h
      subst hs; subst hσ
      refine ⟨?_, existing_mem _ _ _ hex, fun hn => hn, ?_, fun _ => rfl,
        fun b t hbt => existing_mem _ _ _ hbt⟩
      · unfold role_session
        rw [hex]
      · intro hcontra
        simp_all
  | none =>
      rw [hex] at h
      unfold get_role_session at h
      cases harn : role_to_assume rn cfg a with
      | error e => rw [harn] at h; exact absurd h (by simp)
      | ok arn =>
          rw [harn] at h
          simp only [Except.ok.injEq, Prod.mk.injEq] at h
          obtain ⟨hs, hσ⟩ := h
          have hex1 : existing_role_session σ1.role_sessions a = some s1 := by
            rw [← hσ, ← hs]
            exact existing_append_self _ _ _ hex
          refine ⟨?_, existing_mem _ _ _ hex1, ?_, ?_, ?_,
            fun b t hbt => existing_mem _ _ _ hbt⟩
          · unfold role_session
            rw [hex1]
          · intro hnd
            rw [← hσ]
            simp only [List.map_append, List.map_cons, List.map_nil]
            rw [List.nodup_append]
            refine ⟨hnd, List.nodup_singleton _, ?_⟩
            simpa using fun hmem => existing_none_not_mem _ _ hex hmem
          · intro _
            rw [← hσ]
          · intro hcontra
            simp_all

/-- Witness for C6: a first lookup for account `dev` on an empty cache creates
and caches one session with one provider call; all cache properties hold at
that concrete state. -/
theorem c6_role_session_cache_witness :
    role_session ⟨"work", "Deploy", true, [⟨"dev", "000011112222", none, none⟩]⟩
        (some "Admin")
        ⟨[("dev", 0)], 1, 1, [("arn:aws:iam::000011112222:role/Admin", "assume-dev", 3600)]⟩
        "dev"
      = .ok (0, ⟨[("dev", 0)], 1, 1,
          [("arn:aws:iam::000011112222:role/Admin", "assume-dev", 3600)]⟩)
    ∧ ("dev", 0) ∈ ([("dev", 0)] : List (String × Nat))
    ∧ ((([] : List (String × Nat)).map Prod.fst).Nodup →
        (([("dev", 0)] : List (String × Nat)).map Prod.fst).Nodup)
    ∧ (existing_role_session [] "dev" = none → 1 = 0 + 1)
    ∧ (existing_role_session [] "dev" = some 0 →
        (⟨[("dev", 0)], 1, 1, [("arn:aws:iam::000011112222:role/Admin", "assume-dev", 3600)]⟩
          : SessionState) = ⟨[], 0, 0, []⟩)
    ∧ (∀ b t, existing_role_session [] b = some t → (b, t) ∈ ([] : List (String × Nat))) :=
  c6_role_session_cache ⟨"work", "Deploy", true, [⟨"dev", "000011112222", none, none⟩]⟩
    (some "Admin") ⟨[], 0, 0, []⟩ "dev" 0
    ⟨[("dev", 0)], 1, 1, [("arn:aws:iam::000011112222:role/Admin", "assume-dev", 3600)]⟩
    (by decide)

/-- C7 (amended): when a refresh is needed, the one-time password is computed
deterministically from the base profile's shared secret exactly when MFA is
configured on the profile (both `mfa_key` and `mfa_serial` present) AND the
use-MFA flag is enabled; when use-MFA is enabled but MFA is not configured,
the operation blocks for interactive entry; and when use-MFA is disabled, no
OTP is obtained at all — the exchange runs without MFA parameters (the
original claim's "otherwise block for interactive entry" does not hold in
that case). -/
theorem c7_otp_acquisition :
    ∀ (st : Store) (nowUtc : Int) (p : String) (use_mfa : Bool)
      (creds : ProviderResult) (base : Fields) (out : UpdateOutcome),
    temp_profile st nowUtc p = .ok none →
    profile st nowUtc p = .ok base →
    update_temp_profile st nowUtc p use_mfa creds = .ok out →
    (out.otp_action = OtpAction.computed (sectionGet base "mfa_key") ↔
        (use_mfa = true ∧ profile_mfa_is_configured base = true))
    ∧ (out.otp_action = OtpAction.interactive ↔
        (use_mfa = true ∧ profile_mfa_is_configured base = false))
    ∧ (out.otp_action = OtpAction.noOtp ↔ use_mfa = false) := by
  intro st nowUtc p use_mfa creds base out htp hbase hupd
  simp only [update_temp_profile, htp, hbase] at hupd
  cases hst : store_temp_profile st nowUtc p creds.AccessKeyId creds.SecretAccessKey
      creds.SessionToken creds.Expiration with
  | error e => rw [hst] at hupd; exact absurd hupd (by simp)
  | ok st1 =>
      rw [hst] at hupd
      simp only [Except.ok.injEq] at hupd
      cases use_mfa with
      | false =>
          rw [← hupd]
          simp
      | true =>
          cases hc : profile_mfa_is_configured base with
          | false =>
              rw [← hupd]
              simp [hc]
          | true =>
              rw [← hupd]
              simp [hc]

/-- Witness for C7: a refresh for a base profile with both MFA fields present
and use-MFA enabled computes the OTP from the stored shared secret. -/
theorem c7_otp_acquisition_witness :
    ((⟨[("work", [("aws_access_key_id", "AK"), ("aws_secret_access_key", "SK"),
          ("mfa_key", "JBSWY3DPEHPK3PXP"), ("mfa_serial", "arn:aws:iam::111122223333:mfa/user")]),
        ("temp-work", [("aws_access_key_id", "AKIA_TEMP"), ("aws_secret_access_key", "SECRET_TEMP"),
          ("aws_session_token", "TOKEN_TEMP"), ("expiration_utc", "2099-01-01T00:00:00+00:00")])],
        1, 1, OtpAction.computed (some "JBSWY3DPEHPK3PXP")⟩ : UpdateOutcome).otp_action
      = OtpAction.computed (sectionGet [("aws_access_key_id", "AK"), ("aws_secret_access_key", "SK"),
          ("mfa_key", "JBSWY3DPEHPK3PXP"), ("mfa_serial", "arn:aws:iam::111122223333:mfa/user")]
          "mfa_key")
      ↔ (true = true ∧ profile_mfa_is_configured [("aws_access_key_id", "AK"),
          ("aws_secret_access_key", "SK"), ("mfa_key", "JBSWY3DPEHPK3PXP"),
          ("mfa_serial", "arn:aws:iam::111122223333:mfa/user")] = true)) :=
  (c7_otp_acquisition
    [("work", [("aws_access_key_id", "AK"), ("aws_secret_access_key", "SK"),
      ("mfa_key", "JBSWY3DPEHPK3PXP"), ("mfa_serial", "arn:aws:iam::111122223333:mfa/user")])]
    0 "work" true ⟨"AKIA_TEMP", "SECRET_TEMP", "TOKEN_TEMP", ⟨2099, 1, 1, 0, 0, 0, some 0⟩⟩
    [("aws_access_key_id", "AK"), ("aws_secret_access_key", "SK"),
      ("mfa_key", "JBSWY3DPEHPK3PXP"), ("mfa_serial", "arn:aws:iam::111122223333:mfa/user")]
    ⟨[("work", [("aws_access_key_id", "AK"), ("aws_secret_access_key", "SK"),
        ("mfa_key", "JBSWY3DPEHPK3PXP"), ("mfa_serial", "arn:aws:iam::111122223333:mfa/user")]),
      ("temp-work", [("aws_access_key_id", "AKIA_TEMP"), ("aws_secret_access_key", "SECRET_TEMP"),
        ("aws_session_token", "TOKEN_TEMP"), ("expiration_utc", "2099-01-01T00:00:00+00:00")])],
      1, 1, OtpAction.computed (some "JBSWY3DPEHPK3PXP")⟩
    (by decide) (by decide) (by decide)).1

/-- Counterexample for C7 as stated: with MFA fully configured on the base
profile but the use-MFA flag disabled, a needed refresh obtains no OTP at all
— in particular it does not block for interactive entry, contrary to the
claim's "otherwise the operation blocks for interactive OTP entry". -/
theorem c7_mfa_disabled_skips_otp :
    (update_temp_profile [("work", [("aws_access_key_id", "AK"), ("aws_secret_access_key", "SK"),
        ("mfa_key", "JBSWY3DPEHPK3PXP"), ("mfa_serial", "arn:aws:iam::111122223333:mfa/user")])]
        0 "work" false ⟨"AKIA_TEMP", "SECRET_TEMP", "TOKEN_TEMP", ⟨2099, 1, 1, 0, 0, 0, some 0⟩⟩).map
        UpdateOutcome.otp_action = .ok OtpAction.noOtp
    ∧ ¬ ((update_temp_profile [("work", [("aws_access_key_id", "AK"), ("aws_secret_access_key", "SK"),
        ("mfa_key", "JBSWY3DPEHPK3PXP"), ("mfa_serial", "arn:aws:iam::111122223333:mfa/user")])]
        0 "work" false ⟨"AKIA_TEMP", "SECRET_TEMP", "TOKEN_TEMP", ⟨2099, 1, 1, 0, 0, 0, some 0⟩⟩).map
        UpdateOutcome.otp_action = .ok OtpAction.interactive) := by
  exact ⟨by decide, by decide⟩

/-- C8: on a cache miss for a configured account with numeric id `i` and
resolved role name `r`, the provider's assume-role operation is called with
exactly the ARN `arn:aws:iam::` ++ i ++ `:role/` ++ r, the session name
`assume-` ++ accountName, and a fixed duration of 3600 seconds, and the new
session is cached under the account name. -/
theorem c8_assume_role_call_shape :
    ∀ (cfg : SessionConfig) (rn : Option String) (σ : SessionState) (a i r : String),
    account_id_for_name cfg a = some i →
    get_role rn cfg a = some r →
    existing_role_session σ.role_sessions a = none →
    role_session cfg rn σ a = .ok (σ.next_id,
      { role_sessions := σ.role_sessions ++ [(a, σ.next_id)]
        provider_calls := σ.provider_calls + 1
        next_id := σ.next_id + 1
        calls := σ.calls ++ [("arn:aws:iam::" ++ i ++ ":role/" ++ r, "assume-" ++ a, 3600)] }) := by
  intro cfg rn σ a i r hid hrole hex
  have harn : role_to_assume rn cfg a = .ok ("arn:aws:iam::" ++ i ++ ":role/" ++ r) := by
    simp only [role_to_assume, hrole, hid, pyStr]
  simp only [role_session, hex, get_role_session, harn]

/-- Witness for C8, the spec's scenario: account `prod` with id `123456789012`
and role `Deploy` yields exactly the ARN
`arn:aws:iam::123456789012:role/Deploy` and session name `assume-prod`. -/
theorem c8_assume_role_call_shape_witness :
    role_session ⟨"work", "Deploy", true, [⟨"prod", "123456789012", none, none⟩]⟩
        (init_role_name none ⟨"work", "Deploy", true, [⟨"prod", "123456789012", none, none⟩]⟩)
        ⟨[], 0, 0, []⟩ "prod"
      = .ok (0, ⟨[("prod", 0)], 1, 1,
          [("arn:aws:iam::123456789012:role/Deploy", "assume-prod", 3600)]⟩) :=
  c8_assume_role_call_shape
    ⟨"work", "Deploy", true, [⟨"prod", "123456789012", none, none⟩]⟩
    (init_role_name none ⟨"work", "Deploy", true, [⟨"prod", "123456789012", none, none⟩]⟩)
    ⟨[], 0, 0, []⟩ "prod" "123456789012" "Deploy" (by decide) (by decide) (by decide)

/-- C9: every successful `store_temp_profile` writes into the section named
exactly `temp-` ++ profileName (a pure function of the base profile name),
and reading that section back from the resulting store reproduces all four
written fields byte-for-byte: the access key id, secret access key and
session token as given, and the expiration as its ISO rendering. -/
theorem c9_temp_section_roundtrip :
    ∀ (st : Store) (nowUtc : Int) (p A S T : String) (E : PyDatetime) (st' : Store),
    store_temp_profile st nowUtc p A S T E = .ok st' →
    temp_profile_name p = "temp-" ++ p
    ∧ readTempField st' p "aws_access_key_id" = some A
    ∧ readTempField st' p "aws_secret_access_key" = some S
    ∧ readTempField st' p "aws_session_token" = some T
    ∧ readTempField st' p "expiration_utc" = some (isoformat E) := by
  intro st nowUtc p A S T E st' h
  unfold store_temp_profile at h
  split at h
  · simp_all
  · rename_i tp htp
    split at h
    · simp_all
    · rename_i st1 hst1
      split at h
      · simp_all
      · rename_i st2 h2
        split at h
        · simp_all
        · rename_i st3 h3
          split at h
          · simp_all
          · rename_i st4 h4
            obtain ⟨⟨f1, hf1⟩, hst2⟩ := assign_temp_ok h2
            obtain ⟨⟨f2, hf2⟩, hst3⟩ := assign_temp_ok h3
            obtain ⟨⟨f3, hf3⟩, hst4⟩ := assign_temp_ok h4
            obtain ⟨⟨f4, hf4⟩, hst5⟩ := assign_temp_ok h
            have e2 : f2 = setField f1 "aws_access_key_id" A := by
              rw [hst2] at hf2
              rw [getSection_setSectionField_self _ _ _ _ _ hf1] at hf2
              exact (Option.some.inj hf2).symm
            have e3 : f3 = setField f2 "aws_secret_access_key" S := by
              rw [hst3] at hf3
              rw [getSection_setSectionField_self _ _ _ _ _ hf2] at hf3
              exact (Option.some.inj hf3).symm
            have e4 : f4 = setField f3 "aws_session_token" T := by
              rw [hst4] at hf4
              rw [getSection_setSectionField_self _ _ _ _ _ hf3] at hf4
              exact (Option.some.inj hf4).symm
            have g5 : getSection st' (temp_profile_name p)
                = some (setField f4 "expiration_utc" (isoformat E)) := by
              rw [hst5]; exact getSection_setSectionField_self _ _ _ _ _ hf4
            refine ⟨rfl, ?_, ?_, ?_, ?_⟩ <;>
              simp only [readTempField, g5, e4, e3, e2] <;>
              first
              | rw [sectionGet_setField_ne _ _ _ _ (by decide),
                    sectionGet_setField_ne _ _ _ _ (by decide),
                    sectionGet_setField_ne _ _ _ _ (by decide),
                    sectionGet_setField_self]
              | rw [sectionGet_setField_ne _ _ _ _ (by decide),
                    sectionGet_setField_ne _ _ _ _ (by decide),
                    sectionGet_setField_self]
              | rw [sectionGet_setField_ne _ _ _ _ (by decide),
                    sectionGet_setField_self]
              | rw [sectionGet_setField_self]

/-- Witness for C9, the spec's round-trip example: writing access key
`AKIA_TEMP` and expiration `2099-01-01T00:00:00+00:00` into an empty store
and reading the `temp-work9` section back reproduces all four fields. -/
theorem c9_temp_section_roundtrip_witness :
    temp_profile_name "work9" = "temp-" ++ "work9"
    ∧ readTempField [("temp-work9", [("aws_access_key_id", "AKIA_TEMP"),
        ("aws_secret_access_key", "SECRET_TEMP"), ("aws_session_token", "TOKEN_TEMP"),
        ("expiration_utc", "2099-01-01T00:00:00+00:00")])] "work9" "aws_access_key_id"
      = some "AKIA_TEMP"
    ∧ readTempField [("temp-work9", [("aws_access_key_id", "AKIA_TEMP"),
        ("aws_secret_access_key", "SECRET_TEMP"), ("aws_session_token", "TOKEN_TEMP"),
        ("expiration_utc", "2099-01-01T00:00:00+00:00")])] "work9" "aws_secret_access_key"
      = some "SECRET_TEMP"
    ∧ readTempField [("temp-work9", [("aws_access_key_id", "AKIA_TEMP"),
        ("aws_secret_access_key", "SECRET_TEMP"), ("aws_session_token", "TOKEN_TEMP"),
        ("expiration_utc", "2099-01-01T00:00:00+00:00")])] "work9" "aws_session_token"
      = some "TOKEN_TEMP"
    ∧ readTempField [("temp-work9", [("aws_access_key_id", "AKIA_TEMP"),
        ("aws_secret_access_key", "SECRET_TEMP"), ("aws_session_token", "TOKEN_TEMP"),
        ("expiration_utc", "2099-01-01T00:00:00+00:00")])] "work9" "expiration_utc"
      = some (isoformat ⟨2099, 1, 1, 0, 0, 0, some 0⟩) :=
  c9_temp_section_roundtrip [] 0 "work9" "AKIA_TEMP" "SECRET_TEMP" "TOKEN_TEMP"
    ⟨2099, 1, 1, 0, 0, 0, some 0⟩
    [("temp-work9", [("aws_access_key_id", "AKIA_TEMP"),
      ("aws_secret_access_key", "SECRET_TEMP"), ("aws_session_token", "TOKEN_TEMP"),
      ("expiration_utc", "2099-01-01T00:00:00+00:00")])] (by decide)

/-- C10 (amended): evaluating expiry on a stored section never raises when the
expiration field is a syntactically valid ISO-8601 timestamp carrying an
explicit UTC offset — it returns a boolean; but a well-formed timestamp
WITHOUT an offset parses to a naive datetime and the comparison against the
aware current time raises a `TypeError` (contrary to the original claim);
a malformed timestamp string propagates the parse error (`ValueError`)
to the caller. -/
theorem c10_is_expired_error_behavior :
    ∀ (st : Store) (nowUtc : Int) (name : String) (f : Fields) (s : String),
    getSection st name = some f → sectionGet f "expiration_utc" = some s →
    ((∀ dt off, fromisoformat s = .ok dt → dt.tz = some off →
        isExpired st nowUtc name = .ok (decide (pyInstant dt < nowUtc)))
     ∧ (∀ dt, fromisoformat s = .ok dt → dt.tz = none →
        isExpired st nowUtc name = .error .typeError)
     ∧ (∀ e, fromisoformat s = .error e → isExpired st nowUtc name = .error e)) := by
  intro st nowUtc name f s hg hs
  refine ⟨?_, ?_, ?_⟩
  · intro dt off hdt htz
    have hexp : is_expired (some s) nowUtc = .ok (decide (pyInstant dt < nowUtc)) := by
      simp only [is_expired, hdt, htz]
    by_cases hlt : pyInstant dt < nowUtc
    · simp [isExpired, read_profile, hg, hs, hexp, hlt]
    · simp [isExpired, read_profile, hg, hs, hexp, hlt]
  · intro dt hdt htz
    have hexp : is_expired (some s) nowUtc = .error .typeError := by
      simp only [is_expired, hdt, htz]
    simp only [isExpired, read_profile, hg, hs, hexp]
  · intro e hdt
    have hexp : is_expired (some s) nowUtc = .error e := by
      simp only [is_expired, hdt]
    simp only [isExpired, read_profile, hg, hs, hexp]

/-- Witness for C10: a section whose expiration carries an explicit UTC offset
evaluates to a boolean without raising. -/
theorem c10_is_expired_error_behavior_witness :
    isExpired [("sect10", [("expiration_utc", "2030-12-31T23:59:59+00:00")])] 5 "sect10"
      = .ok (decide (pyInstant ⟨2030, 12, 31, 23, 59, 59, some 0⟩ < 5)) :=
  (c10_is_expired_error_behavior
      [("sect10", [("expiration_utc", "2030-12-31T23:59:59+00:00")])] 5 "sect10"
      [("expiration_utc", "2030-12-31T23:59:59+00:00")] "2030-12-31T23:59:59+00:00"
      (by decide) (by decide)).1
    ⟨2030, 12, 31, 23, 59, 59, some 0⟩ 0 (by decide) (by decide)

/-- Counterexample for C10 as stated: `2099-01-01T00:00:00` is a syntactically
valid ISO-8601 timestamp written without an explicit UTC offset, yet
evaluating expiry on it raises a `TypeError` (naive-vs-aware comparison)
instead of returning a boolean. -/
theorem c10_naive_timestamp_raises :
    fromisoformat "2099-01-01T00:00:00" = .ok ⟨2099, 1, 1, 0, 0, 0, none⟩
    ∧ is_expired (some "2099-01-01T00:00:00") 0 = .error .typeError
    ∧ isExpired [("temp-n", [("expiration_utc", "2099-01-01T00:00:00")])] 0 "temp-n"
      = .error .typeError := by
  exact ⟨by decide, by decide, by decide⟩
